import Mathlib

/-!
Shallow embedding of `sensu-rhose-handler` (src/main.go).

The program forwards a Sensu monitoring event to the RHOSE ingestion
endpoint, optionally attaching a bearer token obtained from an SSO
(client-credentials grant).  Process-wide mutable state is the pair of
globals `cachedToken : *AccessTokenResponse` and `used : string`; both are
made explicit here as `HandlerState`.  External effects (the SSO HTTP
exchange, the JWT signature check against the embedded JWKS, and the
delivery HTTP call) cannot be computed inside the embedding: they enter as
explicit outcome parameters (`AcquireOutcome`, `ValidationOracle`,
`DeliverOutcome`), while everything the Go code decides itself (control
flow, cache reads/writes, the `used` flag, header construction, error
wrapping, the structural precondition `jwt.Parse` imposes on a token
string) is translated faithfully.
-/

namespace RhoseHandler

/-- `AccessTokenResponse` from main.go: the decoded JSON body of the SSO
response. -/
structure AccessTokenResponse where
  accessToken : String
  expiresAt : Int
  refreshExpiresIn : Int
  tokenType : String
  scope : String
  notBeforePolicy : Int
  deriving Repr, DecidableEq

/-- `HandlerConfig` from main.go (the `sensu.PluginConfig` header fields are
irrelevant to the logic and omitted). -/
structure HandlerConfig where
  rhoseURL : String
  clientID : String
  clientSecret : String
  ssoURL : String
  authenticationEnabled : String
  deriving Repr, DecidableEq

/-- Go: `defaultAuthenticationEnabled = "no"`. -/
def defaultAuthenticationEnabled : String := "no"

/-- The process-wide globals of main.go:
`var cachedToken *AccessTokenResponse` and `var used string = "no"`. -/
structure HandlerState where
  cachedToken : Option AccessTokenResponse
  used : String
  deriving Repr, DecidableEq

/-- Initial values of the globals: `cachedToken = nil`, `used = "no"`. -/
def initialState : HandlerState := ⟨none, "no"⟩

/-- Outcome of one SSO acquisition attempt (the `client.Do` +
`json.Decode` sequence at main.go:189-199), supplied by the environment:
a transport-level failure of `client.Do`, a response whose body does not
decode into `AccessTokenResponse`, or a decoded response. -/
inductive AcquireOutcome where
  | transportError (msg : String)
  | decodeError (msg : String)
  | ok (r : AccessTokenResponse)
  deriving Repr, DecidableEq

/-- Outcome of the final delivery POST (`client.Do` at main.go:233):
either a transport-level failure (in which case the returned `*Response`
is nil) or a response carrying some HTTP status code. -/
inductive DeliverOutcome where
  | transportError (msg : String)
  | status (code : Nat)
  deriving Repr, DecidableEq

/-- `jwt.Parse` (golang-jwt v4) first splits the token on "." and fails
unless there are exactly three segments; splitting on the one-character
separator yields three segments exactly when the string contains exactly
two '.' characters.  This structural precondition is computable and
translated here; the cryptographic part is the oracle below. -/
def wellFormedJWT (s : String) : Bool := s.data.count '.' == 2

/-- The part of `jwt.Parse(_, jwks.Keyfunc)` the embedding cannot compute:
base64/JSON decoding of the segments, `kid` lookup in the embedded JWKS,
RSA signature verification and claim validation.  Supplied as an oracle
over the token string. -/
structure ValidationOracle where
  sigOk : String → Bool

/-- Full success of `jwt.Parse` + `decodedToken.Valid` at main.go:170-174:
the token must be structurally well formed, and the cryptographic check
must pass. -/
def tokenValid (o : ValidationOracle) (s : String) : Bool :=
  wellFormedJWT s && o.sigOk s

/-- Result of one `getToken()` call: the returned `(string, error)` pair,
the globals after the call, and instrumentation counting how many SSO
acquisition attempts and how many parses of the embedded JWKS blob
(`keyfunc.NewJSON(jwksJSON)` at main.go:164) the call performed. -/
structure GetTokenResult where
  token : String
  error : Option String
  state : HandlerState
  acquirerCalls : Nat
  jwksParses : Nat
  deriving Repr, DecidableEq

/-- The acquisition tail of `getToken` (main.go:181-201): one POST of the
client-credentials form to the SSO; on transport failure or an
undecodable body return an error leaving the globals untouched; on
success overwrite `cachedToken` with the decoded record (the `used` flag
is not written on this path) and return its access token.
`parses` is the number of JWKS parses already performed by this call. -/
def acquireTail (acq : AcquireOutcome) (st : HandlerState) (parses : Nat) :
    GetTokenResult :=
  match acq with
  | .transportError m =>
      ⟨"", some ("Failed to send message to RHOSE: " ++ m), st, 1, parses⟩
  | .decodeError m =>
      ⟨"", some ("Failed to retrieve jwt token: " ++ m), st, 1, parses⟩
  | .ok r =>
      ⟨r.accessToken, none, { st with cachedToken := some r }, 1, parses⟩

/-- `getToken()` (main.go:156-202).  If authentication is not exactly
"yes", return `("", nil)` immediately.  Otherwise, if the cache slot is
populated, parse the embedded JWKS blob (this happens inside the call,
once per call) and run `jwt.Parse` on the cached access token: on success
set `used = "yes"` and return the cached token; on any validation failure
fall through (the failure is only printed).  The fall-through and the
empty-slot case both run the acquisition tail. -/
def getToken (cfg : HandlerConfig) (o : ValidationOracle)
    (acq : AcquireOutcome) (st : HandlerState) : GetTokenResult :=
  if cfg.authenticationEnabled ≠ "yes" then
    ⟨"", none, st, 0, 0⟩
  else
    match st.cachedToken with
    | some r =>
        if tokenValid o r.accessToken then
          ⟨r.accessToken, none, { st with used := "yes" }, 0, 1⟩
        else
          acquireTail acq st 1
    | none => acquireTail acq st 0

/-- The CloudEvents envelope built at main.go:218-231, as far as the spec
observes it: fixed source and type, the monitoring event as payload, the
"refreshed" extension read from the global `used`, and the Authorization
header attached to the delivery request iff authentication is "yes". -/
structure Envelope where
  source : String
  eventType : String
  payload : String
  refreshed : String
  authorization : Option String
  deriving Repr, DecidableEq

/-- What `sendMessage` does after (or instead of) building the request:
return a token-resolution error, crash dereferencing the nil response
(`res.StatusCode` at main.go:235 runs before the `err != nil` check, so a
transport failure of the delivery POST panics), or return nil.  The Go
code never returns a delivery error: `err == nil` reaches `return nil`
whatever the status code. -/
inductive SendResult where
  | tokenError (msg : String)
  | panicNilDeref
  | success
  deriving Repr, DecidableEq

/-- Result of one `sendMessage` call: the outcome, the envelope it built
(none when token resolution failed before construction), the globals
after the call, and the dispatch-wide instrumentation totals. -/
structure SendOutcome where
  result : SendResult
  envelope : Option Envelope
  state : HandlerState
  acquirerCalls : Nat
  jwksParses : Nat
  deriving Repr, DecidableEq

/-- `sendMessage` (main.go:204-245).  `getToken` is called twice; either
error aborts the dispatch with a wrapped error.  The envelope's
"refreshed" extension reads the global `used` after the second call.  The
Authorization header is attached iff `authenticationEnabled == "yes"`.
One delivery POST is made, with no retry; `acqs n` is the outcome the SSO
would give the (n+1)-th acquisition attempt of this dispatch. -/
def sendMessage (cfg : HandlerConfig) (o : ValidationOracle)
    (acqs : Nat → AcquireOutcome) (deliver : DeliverOutcome)
    (eventJSON : String) (st : HandlerState) : SendOutcome :=
  let g1 := getToken cfg o (acqs 0) st
  match g1.error with
  | some e =>
      ⟨.tokenError ("Failed to get token from sso " ++ e), none, g1.state,
        g1.acquirerCalls, g1.jwksParses⟩
  | none =>
    let g2 := getToken cfg o (acqs g1.acquirerCalls) g1.state
    match g2.error with
    | some e =>
        ⟨.tokenError ("Failed to get token from sso " ++ e), none, g2.state,
          g1.acquirerCalls + g2.acquirerCalls, g1.jwksParses + g2.jwksParses⟩
    | none =>
      let env : Envelope :=
        { source := "sensu/sensu-rhose-handler"
          eventType := "example.type"
          payload := eventJSON
          refreshed := g2.state.used
          authorization :=
            if cfg.authenticationEnabled = "yes" then
              some ("Bearer " ++ g2.token)
            else none }
      match deliver with
      | .transportError _ =>
          ⟨.panicNilDeref, some env, g2.state,
            g1.acquirerCalls + g2.acquirerCalls,
            g1.jwksParses + g2.jwksParses⟩
      | .status _ =>
          ⟨.success, some env, g2.state,
            g1.acquirerCalls + g2.acquirerCalls,
            g1.jwksParses + g2.jwksParses⟩

/-- The environment variables `checkArgs` consults (empty string models an
unset variable, matching the Go `os.Getenv` contract). -/
structure EnvVars where
  rhoseWebhookURL : String
  authenticationEnabled : String
  rhoseClientID : String
  rhoseClientSecret : String
  ssoURL : String
  deriving Repr, DecidableEq

/-- The webhook environment override of main.go:121-123:
`RHOSE_WEBHOOK_URL`, when set, overrides the webhook URL. -/
def applyWebhookEnv (env : EnvVars) (cfg : HandlerConfig) : HandlerConfig :=
  if env.rhoseWebhookURL ≠ "" then
    { cfg with rhoseURL := env.rhoseWebhookURL } else cfg

/-- The credential environment overrides of main.go:128-136:
`RHOSE_CLIENT_ID`, `RHOSE_CLIENT_SECRET` and `SSO_URL` each override the
corresponding field when set. -/
def applyCredEnv (env : EnvVars) (cfg : HandlerConfig) : HandlerConfig :=
  let cfg1 := if env.rhoseClientID ≠ "" then
      { cfg with clientID := env.rhoseClientID } else cfg
  let cfg2 := if env.rhoseClientSecret ≠ "" then
      { cfg1 with clientSecret := env.rhoseClientSecret } else cfg1
  if env.ssoURL ≠ "" then { cfg2 with ssoURL := env.ssoURL } else cfg2

/-- The credential presence checks of main.go:138-146, in source order;
the SSO message reuses the `clientSecret` constant, reproducing the
source's message verbatim. -/
def credChecks (cfg : HandlerConfig) : Option String :=
  if cfg.clientID = "" then
    some "--client-id or RHOSE_CLIENT_ID environment variable is required"
  else if cfg.clientSecret = "" then
    some "--client-secret or RHOSE_CLIENT_SECRET environment variable is required"
  else if cfg.ssoURL = "" then
    some "--client-secret or SSO_URL environment variable is required"
  else none

/-- `checkArgs` (main.go:119-154).  Deprecated environment variables
override the flag-parsed config; the credential overrides and checks run
only inside the branch taken when `AUTHENTICATION_ENABLED` is set in the
environment and the flag still holds its default "no" (a failing
credential check returns immediately).  The webhook URL is checked last.
Returns the possibly-updated config and the error, if any. -/
def checkArgs (env : EnvVars) (cfg0 : HandlerConfig) :
    HandlerConfig × Option String :=
  let cfg1 := applyWebhookEnv env cfg0
  if env.authenticationEnabled ≠ "" ∧
      cfg1.authenticationEnabled = defaultAuthenticationEnabled then
    let cfg5 := applyCredEnv env
      { cfg1 with authenticationEnabled := env.authenticationEnabled }
    match credChecks cfg5 with
    | some e => (cfg5, some e)
    | none =>
      if cfg5.rhoseURL = "" then
        (cfg5, some "--webhook-url or RHOSE_WEBHOOK_URL environment variable is required")
      else
        (cfg5, none)
  else if cfg1.rhoseURL = "" then
    (cfg1, some "--webhook-url or RHOSE_WEBHOOK_URL environment variable is required")
  else
    (cfg1, none)

end RhoseHandler

namespace RhoseHandler

/-! ### Concrete fixtures used by witnesses and counterexamples -/

/-- Oracle under which every structurally well-formed token passes the
cryptographic check. -/
def oracleTrue : ValidationOracle := ⟨fun _ => true⟩

/-- A configuration with authentication enabled and all fields set. -/
def cfgAuth : HandlerConfig := ⟨"http://wh", "id", "sec", "http://sso", "yes"⟩

/-- A configuration with authentication at its default "no". -/
def cfgNoAuth : HandlerConfig := ⟨"http://wh", "id", "sec", "http://sso", "no"⟩

/-- A configuration with authentication set to "true" (not "yes"). -/
def cfgTrue : HandlerConfig := ⟨"http://wh", "id", "sec", "http://sso", "true"⟩

/-- A token whose access token has the three-segment JWT shape. -/
def tokA : AccessTokenResponse := ⟨"a.b.c", 0, 0, "Bearer", "openid", 0⟩

/-- A second three-segment token, distinct from `tokA`. -/
def tokB : AccessTokenResponse := ⟨"d.e.f", 0, 0, "Bearer", "openid", 0⟩

/-- A token whose access token is not a three-segment JWT: `jwt.Parse`
fails on it before any key lookup, whatever the key set. -/
def tokGarbage : AccessTokenResponse := ⟨"garbage", 0, 0, "Bearer", "openid", 0⟩

end RhoseHandler

namespace RhoseHandler

/-! ### Claim theorems -/

/-- C5: with authentication enabled and a cached record that passes
validation against the key set, `getToken` performs zero Acquirer calls
and returns the cached record's access token (with nil error); the cache
slot is untouched and the `used` flag is set to "yes". -/
theorem getToken_cache_hit (cfg : HandlerConfig) (o : ValidationOracle)
    (acq : AcquireOutcome) (st : HandlerState) (rec : AccessTokenResponse)
    (hA : cfg.authenticationEnabled = "yes")
    (hC : st.cachedToken = some rec)
    (hV : tokenValid o rec.accessToken = true) :
    getToken cfg o acq st =
      ⟨rec.accessToken, none, { st with used := "yes" }, 0, 1⟩ := by
  simp [getToken, hA, hC, hV]

/-- Witness for C5 at a concrete input. -/
theorem getToken_cache_hit_witness :
    getToken cfgAuth oracleTrue (.ok tokB) ⟨some tokA, "no"⟩ =
      ⟨"a.b.c", none, ⟨some tokA, "yes"⟩, 0, 1⟩ :=
  getToken_cache_hit cfgAuth oracleTrue (.ok tokB) ⟨some tokA, "no"⟩ tokA
    rfl rfl (by decide)

/-- C6: with authentication enabled and a cached record that fails
validation, `getToken` calls the Acquirer exactly once; on acquisition
success it fully overwrites the cache slot with the new record and
returns the new access token with nil error; on acquisition failure the
returned error is the acquisition error (the validation failure is never
surfaced to the caller). -/
theorem getToken_cache_refresh_on_invalid (cfg : HandlerConfig)
    (o : ValidationOracle) (acq : AcquireOutcome) (st : HandlerState)
    (rec : AccessTokenResponse)
    (hA : cfg.authenticationEnabled = "yes")
    (hC : st.cachedToken = some rec)
    (hV : tokenValid o rec.accessToken = false) :
    (getToken cfg o acq st).acquirerCalls = 1 ∧
    (∀ r, acq = .ok r →
      getToken cfg o acq st =
        ⟨r.accessToken, none, { st with cachedToken := some r }, 1, 1⟩) ∧
    (∀ m, acq = .transportError m →
      getToken cfg o acq st =
        ⟨"", some ("Failed to send message to RHOSE: " ++ m), st, 1, 1⟩) ∧
    (∀ m, acq = .decodeError m →
      getToken cfg o acq st =
        ⟨"", some ("Failed to retrieve jwt token: " ++ m), st, 1, 1⟩) := by
  refine ⟨?_, ?_, ?_, ?_⟩ <;>
    first
      | (intro x hx; subst hx; simp [getToken, acquireTail, hA, hC, hV])
      | (cases acq <;> simp [getToken, acquireTail, hA, hC, hV])

/-- Witness for C6 at a concrete input: cached `"garbage"` token fails
`jwt.Parse` structurally; the acquired record `tokB` replaces it. -/
theorem getToken_cache_refresh_on_invalid_witness :
    (getToken cfgAuth oracleTrue (.ok tokB) ⟨some tokGarbage, "no"⟩).acquirerCalls = 1 ∧
    getToken cfgAuth oracleTrue (.ok tokB) ⟨some tokGarbage, "no"⟩ =
      ⟨"d.e.f", none, ⟨some tokB, "no"⟩, 1, 1⟩ := by
  have h := getToken_cache_refresh_on_invalid cfgAuth oracleTrue (.ok tokB)
    ⟨some tokGarbage, "no"⟩ tokGarbage rfl rfl (by decide)
  exact ⟨h.1, h.2.1 tokB rfl⟩

/-- C9: with authentication enabled, whenever the acquisition path is
reached (empty cache slot, or cached record failing validation) and the
acquisition fails at the transport level or with an undecodable body,
`getToken` returns an empty token with a non-nil error and leaves the
globals (cache slot and `used` flag) exactly as they were. -/
theorem getToken_acquire_failure_frame (cfg : HandlerConfig)
    (o : ValidationOracle) (acq : AcquireOutcome) (st : HandlerState)
    (hA : cfg.authenticationEnabled = "yes")
    (hP : ∀ rec, st.cachedToken = some rec →
      tokenValid o rec.accessToken = false)
    (hF : ∀ r, acq ≠ .ok r) :
    (getToken cfg o acq st).token = "" ∧
    (getToken cfg o acq st).error.isSome = true ∧
    (getToken cfg o acq st).state = st := by
  cases hsc : st.cachedToken with
  | none =>
    cases acq with
    | ok r => exact absurd rfl (hF r)
    | transportError m => simp [getToken, acquireTail, hA, hsc]
    | decodeError m => simp [getToken, acquireTail, hA, hsc]
  | some rec =>
    have hV := hP rec hsc
    cases acq with
    | ok r => exact absurd rfl (hF r)
    | transportError m => simp [getToken, acquireTail, hA, hsc, hV]
    | decodeError m => simp [getToken, acquireTail, hA, hsc, hV]

/-- Witness for C9 at a concrete input: empty slot, transport failure. -/
theorem getToken_acquire_failure_frame_witness :
    (getToken cfgAuth oracleTrue (.transportError "refused") initialState).token = "" ∧
    (getToken cfgAuth oracleTrue (.transportError "refused") initialState).error.isSome = true ∧
    (getToken cfgAuth oracleTrue (.transportError "refused") initialState).state = initialState :=
  getToken_acquire_failure_frame cfgAuth oracleTrue (.transportError "refused")
    initialState rfl (by intro rec h; cases h) (by intro r h; cases h)

end RhoseHandler

namespace RhoseHandler

/-- Helper (not itself a claim): when both `getToken` calls succeed,
`sendMessage` builds exactly the envelope of main.go:218-231, finishes in
the state left by the second call, sums the instrumentation counters, and
its result depends only on the delivery outcome (success for any status
code, nil-dereference crash on a transport failure). -/
theorem sendMessage_success_eq (cfg : HandlerConfig) (o : ValidationOracle)
    (acqs : Nat → AcquireOutcome) (deliver : DeliverOutcome) (ev : String)
    (st : HandlerState)
    (h1 : (getToken cfg o (acqs 0) st).error = none)
    (h2 : (getToken cfg o (acqs (getToken cfg o (acqs 0) st).acquirerCalls)
      (getToken cfg o (acqs 0) st).state).error = none) :
    sendMessage cfg o acqs deliver ev st =
      ⟨(match deliver with
        | .transportError _ => .panicNilDeref
        | .status _ => .success),
       some ⟨"sensu/sensu-rhose-handler", "example.type", ev,
         (getToken cfg o (acqs (getToken cfg o (acqs 0) st).acquirerCalls)
           (getToken cfg o (acqs 0) st).state).state.used,
         if cfg.authenticationEnabled = "yes" then
           some ("Bearer " ++ (getToken cfg o
             (acqs (getToken cfg o (acqs 0) st).acquirerCalls)
             (getToken cfg o (acqs 0) st).state).token)
         else none⟩,
       (getToken cfg o (acqs (getToken cfg o (acqs 0) st).acquirerCalls)
         (getToken cfg o (acqs 0) st).state).state,
       (getToken cfg o (acqs 0) st).acquirerCalls +
         (getToken cfg o (acqs (getToken cfg o (acqs 0) st).acquirerCalls)
           (getToken cfg o (acqs 0) st).state).acquirerCalls,
       (getToken cfg o (acqs 0) st).jwksParses +
         (getToken cfg o (acqs (getToken cfg o (acqs 0) st).acquirerCalls)
           (getToken cfg o (acqs 0) st).state).jwksParses⟩ := by
  cases deliver <;> simp only [sendMessage, h1, h2]

/-- Helper (not itself a claim): an envelope is only built when both
`getToken` calls succeed. -/
theorem sendMessage_envelope_some_errors_none (cfg : HandlerConfig)
    (o : ValidationOracle) (acqs : Nat → AcquireOutcome)
    (deliver : DeliverOutcome) (ev : String) (st : HandlerState)
    (env : Envelope)
    (h : (sendMessage cfg o acqs deliver ev st).envelope = some env) :
    (getToken cfg o (acqs 0) st).error = none ∧
    (getToken cfg o (acqs (getToken cfg o (acqs 0) st).acquirerCalls)
      (getToken cfg o (acqs 0) st).state).error = none := by
  cases he1 : (getToken cfg o (acqs 0) st).error with
  | some e => exact Option.noConfusion ((by simp only [sendMessage, he1] at h; exact h : (none : Option Envelope) = some env))
  | none =>
    cases he2 : (getToken cfg o (acqs (getToken cfg o (acqs 0) st).acquirerCalls)
        (getToken cfg o (acqs 0) st).state).error with
    | some e => exact Option.noConfusion ((by simp only [sendMessage, he1, he2] at h; exact h : (none : Option Envelope) = some env))
    | none => exact ⟨rfl, rfl⟩

end RhoseHandler

namespace RhoseHandler

/-- C7: with authentication disabled, `getToken` returns an empty token
and a nil error without reading or writing the cache slot, with zero
acquisition attempts and zero key-set parses; the dispatch's globals are
unchanged, no acquisition happens anywhere in the dispatch, and the
delivery request carries no Authorization header. -/
theorem sendMessage_auth_disabled (cfg : HandlerConfig) (o : ValidationOracle)
    (acqs : Nat → AcquireOutcome) (deliver : DeliverOutcome) (ev : String)
    (st : HandlerState)
    (hA : cfg.authenticationEnabled ≠ "yes") :
    (∀ a, getToken cfg o a st = ⟨"", none, st, 0, 0⟩) ∧
    (sendMessage cfg o acqs deliver ev st).state = st ∧
    (sendMessage cfg o acqs deliver ev st).acquirerCalls = 0 ∧
    (sendMessage cfg o acqs deliver ev st).jwksParses = 0 ∧
    (∀ env, (sendMessage cfg o acqs deliver ev st).envelope = some env →
      env.authorization = none) := by
  have hg : ∀ a, getToken cfg o a st = ⟨"", none, st, 0, 0⟩ := by
    intro a; simp [getToken, hA]
  refine ⟨hg, ?_⟩
  cases deliver <;> simp [sendMessage, hg, hA]

/-- Witness for C7 at a concrete input: authentication at its default
"no", credentials configured. -/
theorem sendMessage_auth_disabled_witness :
    (∀ a, getToken cfgNoAuth oracleTrue a ⟨some tokA, "no"⟩ =
      ⟨"", none, ⟨some tokA, "no"⟩, 0, 0⟩) ∧
    (sendMessage cfgNoAuth oracleTrue (fun _ => .ok tokB) (.status 200) "ev"
      ⟨some tokA, "no"⟩).state = ⟨some tokA, "no"⟩ ∧
    (sendMessage cfgNoAuth oracleTrue (fun _ => .ok tokB) (.status 200) "ev"
      ⟨some tokA, "no"⟩).acquirerCalls = 0 ∧
    (sendMessage cfgNoAuth oracleTrue (fun _ => .ok tokB) (.status 200) "ev"
      ⟨some tokA, "no"⟩).jwksParses = 0 ∧
    (∀ env, (sendMessage cfgNoAuth oracleTrue (fun _ => .ok tokB) (.status 200)
      "ev" ⟨some tokA, "no"⟩).envelope = some env → env.authorization = none) :=
  sendMessage_auth_disabled cfgNoAuth oracleTrue (fun _ => .ok tokB)
    (.status 200) "ev" ⟨some tokA, "no"⟩ (by decide)

/-- C10: authentication counts as enabled exactly when the configuration
string is `"yes"`.  For any other value (for example "true", "Yes" or the
default "no"), `getToken` returns immediately with an empty token and the
envelope carries no Authorization header, even when credentials are
configured; when the value is `"yes"`, any envelope that is built carries
a `Bearer` Authorization header. -/
theorem auth_enabled_iff_exactly_yes (cfg : HandlerConfig)
    (o : ValidationOracle) (acq : AcquireOutcome)
    (acqs : Nat → AcquireOutcome) (deliver : DeliverOutcome) (ev : String)
    (st : HandlerState) :
    (cfg.authenticationEnabled ≠ "yes" →
      getToken cfg o acq st = ⟨"", none, st, 0, 0⟩ ∧
      ∀ env, (sendMessage cfg o acqs deliver ev st).envelope = some env →
        env.authorization = none) ∧
    (cfg.authenticationEnabled = "yes" →
      ∀ env, (sendMessage cfg o acqs deliver ev st).envelope = some env →
        ∃ t, env.authorization = some ("Bearer " ++ t)) := by
  constructor
  · intro hA
    have hg : ∀ a, getToken cfg o a st = ⟨"", none, st, 0, 0⟩ := by
      intro a; simp [getToken, hA]
    refine ⟨hg _, ?_⟩
    intro env henv
    have h := sendMessage_envelope_some_errors_none cfg o acqs deliver ev st env henv
    rw [sendMessage_success_eq cfg o acqs deliver ev st h.1 h.2] at henv
    simp only [Option.some.injEq] at henv
    subst henv
    simp [hA]
  · intro hA env henv
    have h := sendMessage_envelope_some_errors_none cfg o acqs deliver ev st env henv
    rw [sendMessage_success_eq cfg o acqs deliver ev st h.1 h.2] at henv
    simp only [Option.some.injEq] at henv
    subst henv
    simp [hA]

/-- Witness for C10 at a concrete input: authentication set to "true"
(not "yes") with all credentials configured. -/
theorem auth_enabled_iff_exactly_yes_witness :
    getToken cfgTrue oracleTrue (.ok tokB) initialState =
      ⟨"", none, initialState, 0, 0⟩ ∧
    ∀ env, (sendMessage cfgTrue oracleTrue (fun _ => .ok tokB) (.status 200)
      "ev" initialState).envelope = some env → env.authorization = none :=
  (auth_enabled_iff_exactly_yes cfgTrue oracleTrue (.ok tokB)
    (fun _ => .ok tokB) (.status 200) "ev" initialState).1 (by decide)

end RhoseHandler

namespace RhoseHandler

/-- C2 counterexample: a dispatch starting with authentication enabled
and an empty cache slot, in which every acquisition succeeds (the SSO
returns a decodable body whose access token "garbage" is not a
three-segment JWT, so `jwt.Parse` rejects it), performs two Acquirer
calls: the second `getToken` re-validates the freshly cached token,
fails, and acquires again — not the single call the claim states. -/
theorem sendMessage_double_resolution_counterexample :
    (sendMessage cfgAuth oracleTrue (fun _ => .ok tokGarbage) (.status 200)
      "ev" initialState).acquirerCalls = 2 := by decide

/-- C2 amended: with authentication enabled, an empty cache slot, and a
successful acquisition whose token passes validation against the key
set, the first `getToken` performs exactly one Acquirer call and
populates the cache slot, the second returns the now-cached token with
zero further Acquirer calls, and the dispatch performs exactly one
Acquirer call in total. -/
theorem sendMessage_double_resolution (cfg : HandlerConfig)
    (o : ValidationOracle) (acqs : Nat → AcquireOutcome)
    (deliver : DeliverOutcome) (ev : String) (st : HandlerState)
    (r : AccessTokenResponse)
    (hA : cfg.authenticationEnabled = "yes")
    (hC : st.cachedToken = none)
    (hacq : acqs 0 = .ok r)
    (hV : tokenValid o r.accessToken = true) :
    getToken cfg o (acqs 0) st =
      ⟨r.accessToken, none, { st with cachedToken := some r }, 1, 0⟩ ∧
    getToken cfg o (acqs 1) { st with cachedToken := some r } =
      ⟨r.accessToken, none,
        { st with cachedToken := some r, used := "yes" }, 0, 1⟩ ∧
    (sendMessage cfg o acqs deliver ev st).acquirerCalls = 1 := by
  have h1 : getToken cfg o (acqs 0) st =
      ⟨r.accessToken, none, { st with cachedToken := some r }, 1, 0⟩ := by
    simp [getToken, acquireTail, hA, hC, hacq]
  have h2 : getToken cfg o (acqs 1) { st with cachedToken := some r } =
      ⟨r.accessToken, none,
        { st with cachedToken := some r, used := "yes" }, 0, 1⟩ := by
    simp [getToken, hA, hV]
  have h2' : getToken cfg o (acqs (getToken cfg o (acqs 0) st).acquirerCalls)
      (getToken cfg o (acqs 0) st).state =
      ⟨r.accessToken, none,
        { st with cachedToken := some r, used := "yes" }, 0, 1⟩ := by
    rw [h1]; exact h2
  refine ⟨h1, h2, ?_⟩
  rw [sendMessage_success_eq cfg o acqs deliver ev st (by rw [h1]) (by rw [h2'])]
  simp [h1, h2, h2']

/-- Witness for the amended C2 at a concrete input. -/
theorem sendMessage_double_resolution_witness :
    getToken cfgAuth oracleTrue (.ok tokA) initialState =
      ⟨"a.b.c", none, ⟨some tokA, "no"⟩, 1, 0⟩ ∧
    getToken cfgAuth oracleTrue (.ok tokA) ⟨some tokA, "no"⟩ =
      ⟨"a.b.c", none, ⟨some tokA, "yes"⟩, 0, 1⟩ ∧
    (sendMessage cfgAuth oracleTrue (fun _ => .ok tokA) (.status 200) "ev"
      initialState).acquirerCalls = 1 :=
  sendMessage_double_resolution cfgAuth oracleTrue (fun _ => .ok tokA)
    (.status 200) "ev" initialState tokA rfl rfl rfl (by decide)

/-- C3 counterexample: a single dispatch with authentication enabled and
a populated, valid cache slot parses the embedded key-set blob twice
(once inside each `getToken` call) — refuting "parsed at most once per
process lifetime, at load time, before any event is processed". -/
theorem jwks_parse_counterexample :
    (sendMessage cfgAuth oracleTrue (fun _ => .ok tokB) (.status 200) "ev"
      ⟨some tokA, "no"⟩).jwksParses = 2 := by decide

/-- C3 amended: the embedded key-set blob is parsed anew inside every
`getToken` call that finds a populated cache slot (so during event
processing, once per validation attempt), and not at all when the slot is
empty or authentication is disabled; a malformed blob would therefore
abort the process at validation time, not at load time. -/
theorem getToken_jwks_parse_per_call (cfg : HandlerConfig)
    (o : ValidationOracle) (acq : AcquireOutcome) (st : HandlerState) :
    (getToken cfg o acq st).jwksParses =
      if cfg.authenticationEnabled = "yes" ∧ st.cachedToken.isSome then 1
      else 0 := by
  by_cases hA : cfg.authenticationEnabled = "yes"
  · cases h : st.cachedToken with
    | none => cases acq <;> simp [getToken, acquireTail, hA, h]
    | some rec =>
      by_cases hv : tokenValid o rec.accessToken <;>
        cases acq <;> simp [getToken, acquireTail, hA, h, hv]
  · simp [getToken, hA]

end RhoseHandler

namespace RhoseHandler

/-- C4 counterexample: a `getToken` call with authentication enabled that
finds the cache slot empty and successfully acquires a token leaves the
used flag at its prior value "no" — it is not marked "refreshed"; it is
instead the validated cache-hit call that sets the flag to "yes".  The
polarity is the opposite of the claim's. -/
theorem used_flag_counterexample :
    (getToken cfgAuth oracleTrue (.ok tokA) initialState).state.used = "no" ∧
    (getToken cfgAuth oracleTrue (.ok tokB)
      ⟨some tokA, "no"⟩).state.used = "yes" := by decide

/-- C4 amended: with authentication enabled, every acquisition path
(empty slot, or cached record failing validation) leaves the used flag
unchanged — nothing marks a refresh; only a validated cache hit writes
the flag, setting it to "yes"; and the envelope's "refreshed" extension
records the flag's value after the second (most recent) resolution of the
dispatch. -/
theorem used_flag_semantics (cfg : HandlerConfig) (o : ValidationOracle)
    (acq : AcquireOutcome) (acqs : Nat → AcquireOutcome)
    (deliver : DeliverOutcome) (ev : String) (st : HandlerState)
    (hA : cfg.authenticationEnabled = "yes") :
    (st.cachedToken = none → (getToken cfg o acq st).state.used = st.used) ∧
    (∀ rec, st.cachedToken = some rec →
      tokenValid o rec.accessToken = false →
      (getToken cfg o acq st).state.used = st.used) ∧
    (∀ rec, st.cachedToken = some rec →
      tokenValid o rec.accessToken = true →
      (getToken cfg o acq st).state.used = "yes") ∧
    (∀ env, (sendMessage cfg o acqs deliver ev st).envelope = some env →
      env.refreshed = (sendMessage cfg o acqs deliver ev st).state.used) := by
  refine ⟨?_, ?_, ?_, ?_⟩
  · intro hC; cases acq <;> simp [getToken, acquireTail, hA, hC]
  · intro rec hC hV; cases acq <;> simp [getToken, acquireTail, hA, hC, hV]
  · intro rec hC hV; simp [getToken, hA, hC, hV]
  · intro env henv
    have h := sendMessage_envelope_some_errors_none cfg o acqs deliver ev st env henv
    rw [sendMessage_success_eq cfg o acqs deliver ev st h.1 h.2] at henv ⊢
    simp only [Option.some.injEq] at henv
    subst henv
    rfl

/-- Witness for the amended C4 at a concrete input: an empty-slot
acquisition leaves the flag "no", a validated cache hit sets it "yes",
and the envelope records the flag after the second resolution. -/
theorem used_flag_semantics_witness :
    (initialState.cachedToken = none →
      (getToken cfgAuth oracleTrue (.ok tokA) initialState).state.used =
        initialState.used) ∧
    (∀ rec, initialState.cachedToken = some rec →
      tokenValid oracleTrue rec.accessToken = false →
      (getToken cfgAuth oracleTrue (.ok tokA) initialState).state.used =
        initialState.used) ∧
    (∀ rec, initialState.cachedToken = some rec →
      tokenValid oracleTrue rec.accessToken = true →
      (getToken cfgAuth oracleTrue (.ok tokA) initialState).state.used =
        "yes") ∧
    (∀ env, (sendMessage cfgAuth oracleTrue (fun _ => .ok tokA) (.status 200)
        "ev" initialState).envelope = some env →
      env.refreshed = (sendMessage cfgAuth oracleTrue (fun _ => .ok tokA)
        (.status 200) "ev" initialState).state.used) :=
  used_flag_semantics cfgAuth oracleTrue (.ok tokA) (fun _ => .ok tokA)
    (.status 200) "ev" initialState rfl

/-- C3 amended witness at a concrete input: a call with a populated slot
performs exactly one key-set parse. -/
theorem getToken_jwks_parse_per_call_witness :
    (getToken cfgAuth oracleTrue (.ok tokB) ⟨some tokA, "no"⟩).jwksParses =
      if cfgAuth.authenticationEnabled = "yes" ∧
          (HandlerState.mk (some tokA) "no").cachedToken.isSome then 1
      else 0 :=
  getToken_jwks_parse_per_call cfgAuth oracleTrue (.ok tokB) ⟨some tokA, "no"⟩

end RhoseHandler


namespace RhoseHandler

/-- Helper (not itself a claim): the webhook environment override never
changes the authentication flag. -/
theorem applyWebhookEnv_auth (env : EnvVars) (cfg : HandlerConfig) :
    (applyWebhookEnv env cfg).authenticationEnabled =
      cfg.authenticationEnabled := by
  unfold applyWebhookEnv; split <;> rfl

/-- Helper (not itself a claim): the credential checks pass exactly when
all three credentials are nonempty. -/
theorem credChecks_none_iff (cfg : HandlerConfig) :
    credChecks cfg = none ↔
      cfg.clientID ≠ "" ∧ cfg.clientSecret ≠ "" ∧ cfg.ssoURL ≠ "" := by
  unfold credChecks; split_ifs <;> simp_all

/-- C8 counterexample: with authentication enabled via the command-line
flag (`authenticationEnabled = "yes"` already in the parsed config) and
all three credentials empty, `checkArgs` returns no error, because the
credential checks live only in the deprecated-environment-variable
branch, which requires the `AUTHENTICATION_ENABLED` environment variable
to be set and the flag to still hold its default "no". -/
theorem checkArgs_counterexample :
    (checkArgs ⟨"", "", "", "", ""⟩ ⟨"http://wh", "", "", "", "yes"⟩).2 =
      none := by decide

/-- C8 amended: whenever `checkArgs` succeeds, the effective webhook URL
is nonempty; the client id, client secret and SSO URL are guaranteed
nonempty only when the deprecated-environment branch applies (the
`AUTHENTICATION_ENABLED` environment variable is set and the parsed flag
still holds its default "no") — authentication enabled by flag alone
undergoes no credential check; and `checkArgs` performs no network
activity (it is a pure function of the environment and parsed config). -/
theorem checkArgs_required_fields (env : EnvVars) (cfg : HandlerConfig) :
    ((checkArgs env cfg).2 = none → (checkArgs env cfg).1.rhoseURL ≠ "") ∧
    (env.authenticationEnabled ≠ "" →
      cfg.authenticationEnabled = defaultAuthenticationEnabled →
      (checkArgs env cfg).2 = none →
      (checkArgs env cfg).1.clientID ≠ "" ∧
      (checkArgs env cfg).1.clientSecret ≠ "" ∧
      (checkArgs env cfg).1.ssoURL ≠ "") := by
  by_cases hb : env.authenticationEnabled ≠ "" ∧
      (applyWebhookEnv env cfg).authenticationEnabled =
        defaultAuthenticationEnabled
  · simp only [checkArgs, if_pos hb]
    cases hcc : credChecks (applyCredEnv env
        { applyWebhookEnv env cfg with
            authenticationEnabled := env.authenticationEnabled }) with
    | some e => simp [hcc]
    | none =>
      have hf := (credChecks_none_iff _).mp hcc
      simp only [hcc]
      split_ifs with hr
      · simp
      · simp [hr, hf]
  · simp only [checkArgs, if_neg hb]
    rw [applyWebhookEnv_auth] at hb
    constructor
    · intro h
      split_ifs at h ⊢ with hr
      exact hr
    · intro hae had
      exact absurd ⟨hae, had⟩ hb

/-- Witness for the amended C8 at a concrete input: the deprecated
environment branch with all credentials supplied by environment
variables. -/
theorem checkArgs_required_fields_witness :
    ((checkArgs ⟨"", "yes", "id", "sec", "http://sso"⟩
        ⟨"http://wh", "", "", "", "no"⟩).2 = none →
      (checkArgs ⟨"", "yes", "id", "sec", "http://sso"⟩
        ⟨"http://wh", "", "", "", "no"⟩).1.rhoseURL ≠ "") ∧
    ((⟨"", "yes", "id", "sec", "http://sso"⟩ : EnvVars).authenticationEnabled ≠ "" →
      (⟨"http://wh", "", "", "", "no"⟩ : HandlerConfig).authenticationEnabled =
        defaultAuthenticationEnabled →
      (checkArgs ⟨"", "yes", "id", "sec", "http://sso"⟩
        ⟨"http://wh", "", "", "", "no"⟩).2 = none →
      (checkArgs ⟨"", "yes", "id", "sec", "http://sso"⟩
        ⟨"http://wh", "", "", "", "no"⟩).1.clientID ≠ "" ∧
      (checkArgs ⟨"", "yes", "id", "sec", "http://sso"⟩
        ⟨"http://wh", "", "", "", "no"⟩).1.clientSecret ≠ "" ∧
      (checkArgs ⟨"", "yes", "id", "sec", "http://sso"⟩
        ⟨"http://wh", "", "", "", "no"⟩).1.ssoURL ≠ "") :=
  checkArgs_required_fields ⟨"", "yes", "id", "sec", "http://sso"⟩
    ⟨"http://wh", "", "", "", "no"⟩

/-- C1: evaluation of `sendMessage` at the failing inputs.  When the
final POST of the envelope returns a non-success status code (here 500),
`sendMessage` returns nil — success, not the delivery failure the claim
(and the spec's intent) requires, because the status code is never
inspected; when the POST fails at the transport level, the code reads
`res.StatusCode` from the nil response before the `err != nil` check
(main.go:235 versus 237), crashing instead of returning the error.  No
retry occurs in either case. -/
theorem sendMessage_delivery_failure_eval :
    (sendMessage cfgNoAuth oracleTrue (fun _ => .ok tokB) (.status 500) "ev"
      initialState).result = .success ∧
    (sendMessage cfgNoAuth oracleTrue (fun _ => .ok tokB)
      (.transportError "connection refused") "ev" initialState).result =
      .panicNilDeref := by decide

end RhoseHandler
